import Mathlib

/-!
Verification development for the contentflow-ai workflow core.

Shallow embedding of:
  - `src/schemas/agent_schema.py` (the pydantic schema contracts),
  - `src/agents/*.py` (agent construction: system prompt + retry configuration),
  - `src/workflow/initial_graph.py` (the three stage nodes, the
    meta-description truncation post-processor, and the linear graph).

Modelling conventions: pydantic `float` score fields become `ℚ`; `str`
fields become `String` except `meta_description`, which is kept as
`List Char` so character-level truncation can be reasoned about directly;
`Optional[T]` becomes `Option T`; a pydantic `Field` bound becomes a
clause of the structure's `Valid` predicate (pydantic enforces these at
parse time).  A stage's generative call (`agent.run`) is modelled as an
environment mapping the instruction string built by the node to either a
typed output or an error string (an exception's message).
-/

namespace ContentFlow

/-- From `TargetAudience` in `src/schemas/agent_schema.py`. -/
structure TargetAudience where
  name : String
  pain_points : List String
  demographics : List String
  preferred_platforms : List String
  content_preferences : List String
  engagement_patterns : List String

/-- From `CompanyProfile` in `src/schemas/agent_schema.py` (the uuid
`company_id` is modelled as its string form). -/
structure CompanyProfile where
  company_id : String
  company_name : String
  industry : String
  target_audience : TargetAudience
  content_themes : List String
  competitor_domains : List String
  business_objectives : List String
  brand_voice : String
  content_preferences : List String
  posting_frequency_target : Int
  seo_keywords : List String
  budget_constraints : Option String
  content_restrictions : List String

/-- `posting_frequency_target` carries `Field(ge=1, le=50)`; no other
field of `CompanyProfile` has a validation bound. -/
abbrev CompanyProfile.Valid (p : CompanyProfile) : Prop :=
  1 ≤ p.posting_frequency_target ∧ p.posting_frequency_target ≤ 50

/-- From `TrendingTopic` in `src/schemas/agent_schema.py`. -/
structure TrendingTopic where
  topic : String
  trend_score : ℚ
  source : String
  relevance_reason : String
  content_angle : String
  business_relevance_score : ℚ
  audience_interest_score : ℚ
  content_opportunity_score : ℚ
  trend_momentum_score : ℚ
  recommended_platforms : List String
  target_keywords : List String
  competitor_coverage : Bool
  urgency_level : String
  trend_lifespan_estimate : String

/-- Exactly the `Field` bounds of `TrendingTopic`: `trend_score` has
`ge=0, le=100`, the four sub-scores have `ge=0` and `le` 40/30/20/10
respectively, and `urgency_level` is `Literal["high", "medium", "low"]`.
There is no constraint relating the sub-scores to `trend_score`. -/
abbrev TrendingTopic.Valid (t : TrendingTopic) : Prop :=
  0 ≤ t.trend_score ∧ t.trend_score ≤ 100 ∧
  0 ≤ t.business_relevance_score ∧ t.business_relevance_score ≤ 40 ∧
  0 ≤ t.audience_interest_score ∧ t.audience_interest_score ≤ 30 ∧
  0 ≤ t.content_opportunity_score ∧ t.content_opportunity_score ≤ 20 ∧
  0 ≤ t.trend_momentum_score ∧ t.trend_momentum_score ≤ 10 ∧
  t.urgency_level ∈ (["high", "medium", "low"] : List String)

/-- From `TrendResearchOutput` in `src/schemas/agent_schema.py`. -/
structure TrendResearchOutput where
  trending_topics : List TrendingTopic
  research_summary : String
  total_topics_found : Int
  total_topics_qualifying : Int
  research_date : String
  research_timeframe : String
  top_keywords : List String
  industry_insights : List String
  competitive_gaps : List String
  seasonal_considerations : List String

/-- `total_topics_found` and `total_topics_qualifying` carry `ge=0`;
nested `TrendingTopic` values are validated recursively by pydantic. -/
abbrev TrendResearchOutput.Valid (o : TrendResearchOutput) : Prop :=
  0 ≤ o.total_topics_found ∧ 0 ≤ o.total_topics_qualifying ∧
  ∀ t ∈ o.trending_topics, t.Valid

/-- From `WeeklyTheme` in `src/schemas/agent_schema.py`. -/
structure WeeklyTheme where
  theme_name : String
  focus_area : String
  key_message : String
  target_pain_points : List String
  supporting_themes : List String

/-- From `ContentMix` in `src/schemas/agent_schema.py`: four percentage
fields, each with `Field(ge=0, le=100)`. -/
structure ContentMix where
  educational_percentage : ℚ
  industry_insights_percentage : ℚ
  company_product_percentage : ℚ
  engagement_community_percentage : ℚ

/-- The `Field` bounds of `ContentMix`: each percentage lies in
`[0, 100]`.  Nothing constrains their sum. -/
abbrev ContentMix.Valid (m : ContentMix) : Prop :=
  0 ≤ m.educational_percentage ∧ m.educational_percentage ≤ 100 ∧
  0 ≤ m.industry_insights_percentage ∧ m.industry_insights_percentage ≤ 100 ∧
  0 ≤ m.company_product_percentage ∧ m.company_product_percentage ≤ 100 ∧
  0 ≤ m.engagement_community_percentage ∧ m.engagement_community_percentage ≤ 100

/-- `ContentMix.validate_total` from `src/schemas/agent_schema.py`:
`abs(total - 100) < 0.1`.  A plain method on the model; no caller in the
repository ever invokes it. -/
def ContentMix.validate_total (m : ContentMix) : Bool :=
  decide (|m.educational_percentage + m.industry_insights_percentage +
           m.company_product_percentage + m.engagement_community_percentage - 100| < 1 / 10)

/-- From `RecommendedContentPiece` in `src/schemas/agent_schema.py`. -/
structure RecommendedContentPiece where
  topic : String
  priority_score : ℚ
  content_type : String
  platform : String
  secondary_platforms : List String
  business_impact_score : ℚ
  audience_engagement_score : ℚ
  competitive_advantage_score : ℚ
  resource_efficiency_score : ℚ
  estimated_effort_hours : ℚ
  target_keywords : List String
  related_trends : List String
  success_probability : ℚ

/-- The `Field` bounds of `RecommendedContentPiece`. -/
abbrev RecommendedContentPiece.Valid (r : RecommendedContentPiece) : Prop :=
  0 ≤ r.priority_score ∧ r.priority_score ≤ 100 ∧
  0 ≤ r.business_impact_score ∧ r.business_impact_score ≤ 35 ∧
  0 ≤ r.audience_engagement_score ∧ r.audience_engagement_score ≤ 25 ∧
  0 ≤ r.competitive_advantage_score ∧ r.competitive_advantage_score ≤ 20 ∧
  0 ≤ r.resource_efficiency_score ∧ r.resource_efficiency_score ≤ 20 ∧
  0 ≤ r.estimated_effort_hours ∧
  0 ≤ r.success_probability ∧ r.success_probability ≤ 100

/-- From `ContentStrategy` in `src/schemas/agent_schema.py`. -/
structure ContentStrategy where
  weekly_theme : WeeklyTheme
  content_mix : ContentMix
  priority_topics : List String
  target_audience_segments : List String
  competitive_differentiation : String
  content_calendar_notes : List String

abbrev ContentStrategy.Valid (c : ContentStrategy) : Prop :=
  c.content_mix.Valid

/-- From `ContentStrategyOutput` in `src/schemas/agent_schema.py`. -/
structure ContentStrategyOutput where
  content_strategy : ContentStrategy
  recommended_content_pieces : List RecommendedContentPiece
  strategy_summary : String
  weekly_focus : String
  success_metrics : List String
  risk_mitigation : List String
  resource_requirements : List String
  timeline_considerations : List String

abbrev ContentStrategyOutput.Valid (o : ContentStrategyOutput) : Prop :=
  o.content_strategy.Valid ∧ ∀ r ∈ o.recommended_content_pieces, r.Valid

/-- From `ContentStructure` in `src/schemas/agent_schema.py`. -/
structure ContentStructure where
  hook : String
  main_points : List String
  supporting_details : List String
  conclusion : String
  call_to_action : String
  content_flow : String

/-- From `SEOOptimization` in `src/schemas/agent_schema.py`;
`meta_description` is kept as a character list. -/
structure SEOOptimization where
  primary_keyword : String
  secondary_keywords : List String
  meta_description : List Char
  title_variations : List String
  target_search_intent : String
  internal_link_opportunities : List String
  featured_snippet_optimization : String

/-- `meta_description` carries `Field(max_length=160)`; no other field of
`SEOOptimization` has a validation bound. -/
abbrev SEOOptimization.Valid (s : SEOOptimization) : Prop :=
  s.meta_description.length ≤ 160

/-- From `PlatformSpecifications` in `src/schemas/agent_schema.py`. -/
structure PlatformSpecifications where
  optimal_length_words : Int
  optimal_length_characters : Option Int
  best_posting_time : String
  hashtags : List String
  visual_requirements : List String
  engagement_tactics : List String
  format_specifications : List String
  cross_promotion_opportunities : List String

abbrev PlatformSpecifications.Valid (p : PlatformSpecifications) : Prop :=
  0 ≤ p.optimal_length_words ∧ ∀ c ∈ p.optimal_length_characters, 0 ≤ c

/-- From `BrandAlignment` in `src/schemas/agent_schema.py`. -/
structure BrandAlignment where
  tone : String
  voice_guidelines : List String
  key_messages : List String
  brand_values_to_highlight : List String
  messaging_restrictions : List String
  brand_personality_elements : List String

/-- From `SuccessMetrics` in `src/schemas/agent_schema.py`. -/
structure SuccessMetrics where
  primary_kpi : String
  target_engagement_rate : Option ℚ
  target_reach : Option Int
  target_clicks : Option Int
  target_leads : Option Int
  target_shares : Option Int
  measurement_timeframe : String
  benchmark_comparison : String

abbrev SuccessMetrics.Valid (m : SuccessMetrics) : Prop :=
  (∀ r ∈ m.target_engagement_rate, 0 ≤ r ∧ r ≤ 100) ∧
  (∀ n ∈ m.target_reach, 0 ≤ n) ∧ (∀ n ∈ m.target_clicks, 0 ≤ n) ∧
  (∀ n ∈ m.target_leads, 0 ≤ n) ∧ (∀ n ∈ m.target_shares, 0 ≤ n)

/-- From `ExecutionNotes` in `src/schemas/agent_schema.py`. -/
structure ExecutionNotes where
  time_estimate_hours : ℚ
  difficulty_level : String
  required_resources : List String
  dependencies : List String
  review_checkpoints : List String
  quality_criteria : List String
  potential_challenges : List String

abbrev ExecutionNotes.Valid (e : ExecutionNotes) : Prop :=
  0 ≤ e.time_estimate_hours

/-- From `ContentBrief` in `src/schemas/agent_schema.py`. -/
structure ContentBrief where
  brief_id : String
  title : String
  final_title_options : List String
  objective : String
  target_audience_segment : String
  content_type : String
  platform : String
  content_structure : ContentStructure
  seo_optimization : SEOOptimization
  platform_specifications : PlatformSpecifications
  brand_alignment : BrandAlignment
  success_metrics : SuccessMetrics
  execution_notes : ExecutionNotes
  created_date : String
  priority_level : String
  deadline : Option String
  approval_workflow : List String

/-- Recursive pydantic validation of a `ContentBrief`; `priority_level`
is `Literal["high", "medium", "low"]`. -/
abbrev ContentBrief.Valid (b : ContentBrief) : Prop :=
  b.seo_optimization.Valid ∧ b.platform_specifications.Valid ∧
  b.success_metrics.Valid ∧ b.execution_notes.Valid ∧
  b.priority_level ∈ (["high", "medium", "low"] : List String)

/-- From `BriefGenerationOutput` in `src/schemas/agent_schema.py`. -/
structure BriefGenerationOutput where
  content_briefs : List ContentBrief
  total_briefs_generated : Int
  generation_date : String
  strategy_alignment_score : ℚ
  estimated_total_hours : ℚ
  resource_summary : List String
  timeline_overview : String

abbrev BriefGenerationOutput.Valid (o : BriefGenerationOutput) : Prop :=
  0 ≤ o.total_briefs_generated ∧
  0 ≤ o.strategy_alignment_score ∧ o.strategy_alignment_score ≤ 100 ∧
  0 ≤ o.estimated_total_hours ∧
  ∀ b ∈ o.content_briefs, b.Valid

/-! ## Agent construction (`src/agents/*.py`)

Each `create_X_agent` builds a `pydantic_ai.Agent` from the shared model,
a profile-dependent system prompt, a declared output type, optionally a
tool list, and optionally an explicit `output_retries` budget.  Only the
facts recorded by the constructor calls are embedded: the prompt string
(its profile-dependent head; the long static instructional tail is
irrelevant here and elided), the number of tools supplied, and the
`output_retries` argument (`none` when the call site does not pass one,
leaving the library default in force). -/

/-- A constructed agent, keeping the constructor arguments that the
repository's call sites actually choose. -/
structure Agent where
  system_prompt : String
  tool_count : Nat
  output_retries : Option Nat

/-- Profile-dependent head of `create_trend_research_prompt`
(`src/agents/trend_research_agent.py`). -/
def create_trend_research_prompt (p : CompanyProfile) : String :=
  "You are an expert Trend Research Agent for " ++ p.company_name ++
  " in the " ++ p.industry ++ " industry."

/-- Profile-dependent head of `create_content_strategy_prompt`
(`src/agents/content_strategy_agent.py`). -/
def create_content_strategy_prompt (p : CompanyProfile) : String :=
  "You are a strategic Content Strategy Agent for " ++ p.company_name ++ "."

/-- Profile-dependent head of `create_brief_generation_prompt`
(`src/agents/brief_generation_agent.py`). -/
def create_brief_generation_prompt (p : CompanyProfile) : String :=
  "You are an expert Content Brief Generation Agent for " ++ p.company_name ++ "."

/-- `create_trend_research_agent` (`src/agents/trend_research_agent.py`):
`Agent(model, tools=[web_search_tool, news_search_tool,
reddit_search_tool], output_type=TrendResearchOutput, system_prompt=...)`
— three tools, no `output_retries` argument. -/
def create_trend_research_agent (p : CompanyProfile) : Agent :=
  { system_prompt := create_trend_research_prompt p
    tool_count := 3
    output_retries := none }

/-- `create_content_strategy_agent`
(`src/agents/content_strategy_agent.py`): `Agent(model,
output_type=ContentStrategyOutput, system_prompt=...)` — no tools, no
`output_retries` argument. -/
def create_content_strategy_agent (p : CompanyProfile) : Agent :=
  { system_prompt := create_content_strategy_prompt p
    tool_count := 0
    output_retries := none }

/-- `create_brief_generation_agent`
(`src/agents/brief_generation_agent.py`): `Agent(model,
output_type=BriefGenerationOutput, system_prompt=...,
output_retries=3)`. -/
def create_brief_generation_agent (p : CompanyProfile) : Agent :=
  { system_prompt := create_brief_generation_prompt p
    tool_count := 0
    output_retries := some 3 }

/-! ## Workflow state and stage nodes (`src/workflow/initial_graph.py`) -/

/-- `ContentWorkflowState` from `src/workflow/initial_graph.py`. -/
structure ContentWorkflowState where
  company_id : String
  profile : CompanyProfile
  trends : Option TrendResearchOutput
  strategy : Option ContentStrategyOutput
  briefs : Option BriefGenerationOutput
  error : Option String
  current_step : String

/-- The generative-call environment of one run: each stage's
`agent.run(instruction)` either returns a schema-typed output or raises,
modelled as `Except` with the exception's message.  The result is a
function of the instruction the node builds. -/
structure AgentEnv where
  trendResult : String → Except String TrendResearchOutput
  strategyResult : String → Except String ContentStrategyOutput
  briefResult : String → Except String BriefGenerationOutput

/-- `', '.join(...)` -/
def joinComma (l : List String) : String :=
  String.intercalate ", " l

/-- The research query built by `trend_research_node`:
`f"{company_info.industry} trends for {company_info.target_audience.name}"`. -/
def research_query (p : CompanyProfile) : String :=
  p.industry ++ " trends for " ++ p.target_audience.name

/-- The `Available Trends` section of the strategy instruction:
`', '.join([topic.topic for topic in trends.trending_topics]) if trends
and trends.trending_topics else 'No specific trends found'`. -/
def strategyTrendsSection (trends : Option TrendResearchOutput) : String :=
  match trends with
  | none => "No specific trends found"
  | some t =>
    if t.trending_topics.isEmpty then "No specific trends found"
    else joinComma (t.trending_topics.map (fun x => x.topic))

/-- `strategy_input` as built by `content_strategy_node`. -/
def build_strategy_input (p : CompanyProfile) (trends : Option TrendResearchOutput) : String :=
  "Company: " ++ p.company_name ++ "\n" ++
  "Industry: " ++ p.industry ++ "\n" ++
  "Business Objectives: " ++ joinComma p.business_objectives ++ "\n\n" ++
  "Available Trends:\n" ++ strategyTrendsSection trends ++ "\n\n" ++
  "Create a weekly content strategy addressing audience pain points: " ++
  joinComma p.target_audience.pain_points

/-- The `Strategy Focus` line of the brief instruction:
`strategy.weekly_focus if strategy else 'General content strategy'`. -/
def briefStrategyFocus (strategy : Option ContentStrategyOutput) : String :=
  match strategy with
  | none => "General content strategy"
  | some st => st.weekly_focus

/-- The `Available Topics` section of the brief instruction:
`', '.join([piece.topic for piece in strategy.recommended_content_pieces])
if strategy and strategy.recommended_content_pieces else 'General content
topics'`. -/
def briefTopicsSection (strategy : Option ContentStrategyOutput) : String :=
  match strategy with
  | none => "General content topics"
  | some st =>
    if st.recommended_content_pieces.isEmpty then "General content topics"
    else joinComma (st.recommended_content_pieces.map (fun x => x.topic))

/-- The `Trending Keywords` section of the brief instruction:
`', '.join(trends.top_keywords[:5]) if trends and trends.top_keywords
else 'General industry keywords'`. -/
def briefKeywordsSection (trends : Option TrendResearchOutput) : String :=
  match trends with
  | none => "General industry keywords"
  | some t =>
    if t.top_keywords.isEmpty then "General industry keywords"
    else joinComma (t.top_keywords.take 5)

/-- `brief_input` as built by `brief_generation_node`. -/
def build_brief_input (p : CompanyProfile) (strategy : Option ContentStrategyOutput)
    (trends : Option TrendResearchOutput) : String :=
  "Company: " ++ p.company_name ++ "\n" ++
  "Target Audience: " ++ p.target_audience.name ++ "\n" ++
  "Brand Voice: " ++ p.brand_voice ++ "\n\n" ++
  "Strategy Focus: " ++ briefStrategyFocus strategy ++ "\n\n" ++
  "Available Topics:\n" ++ briefTopicsSection strategy ++ "\n\n" ++
  "Trending Keywords:\n" ++ briefKeywordsSection trends ++ "\n\n" ++
  "Generate " ++ toString p.posting_frequency_target ++
  " detailed content briefs for this week."

/-- The ellipsis marker `"..."` appended by the truncation repair. -/
def ellipsisMarker : List Char := ['.', '.', '.']

/-- `truncate_meta_descriptions` from `src/workflow/initial_graph.py`:
for each brief, if `len(meta_description) > 160` replace it by its first
157 characters plus `"..."`; `seo_optimization` is a required field, so
the source's `hasattr`/truthiness guard always passes here. -/
def truncate_meta_descriptions (output : BriefGenerationOutput) : BriefGenerationOutput :=
  { output with
    content_briefs := output.content_briefs.map (fun brief =>
      if 160 < brief.seo_optimization.meta_description.length then
        { brief with
          seo_optimization :=
            { brief.seo_optimization with
              meta_description :=
                brief.seo_optimization.meta_description.take 157 ++ ellipsisMarker } }
      else brief) }

/-- `trend_research_node`: on success, store `trends` and advance
`current_step` to `"trend_research_done"`; on any exception, set
`error` to `"Trend Research Failed: <cause>"` and touch nothing else. -/
def trend_research_node (env : AgentEnv) (s : ContentWorkflowState) : ContentWorkflowState :=
  match env.trendResult (research_query s.profile) with
  | Except.ok out =>
    { s with trends := some out, current_step := "trend_research_done" }
  | Except.error e =>
    { s with error := some ("Trend Research Failed: " ++ e) }

/-- `content_strategy_node`: on success, store `strategy` and advance
`current_step` to `"content_strategy_done"`; on any exception, set
`error` to `"Content Strategy Failed: <cause>"`. -/
def content_strategy_node (env : AgentEnv) (s : ContentWorkflowState) : ContentWorkflowState :=
  match env.strategyResult (build_strategy_input s.profile s.trends) with
  | Except.ok out =>
    { s with strategy := some out, current_step := "content_strategy_done" }
  | Except.error e =>
    { s with error := some ("Content Strategy Failed: " ++ e) }

/-- `brief_generation_node`: on success, store the truncation-repaired
briefs and advance `current_step` to `"brief_generation_done"`; on any
exception, set `error` to `"Brief Generation Failed: <cause>"`. -/
def brief_generation_node (env : AgentEnv) (s : ContentWorkflowState) : ContentWorkflowState :=
  match env.briefResult (build_brief_input s.profile s.strategy s.trends) with
  | Except.ok out =>
    { s with briefs := some (truncate_meta_descriptions out),
             current_step := "brief_generation_done" }
  | Except.error e =>
    { s with error := some ("Brief Generation Failed: " ++ e) }

/-! ## The compiled graph (`content_graph_builder` / `content_graph`)

The builder adds the three nodes and the unconditional edges
START → trend_research → content_strategy → brief_generation → END.
The executor follows the edge list from START, applying each reached
node to the threaded state and recording the invocation trace. -/

/-- The edge list registered on `content_graph_builder`. -/
def graph_edges : List (String × String) :=
  [("START", "trend_research"),
   ("trend_research", "content_strategy"),
   ("content_strategy", "brief_generation"),
   ("brief_generation", "END")]

/-- Successor of a node in the graph. -/
def nextNode (n : String) : Option String :=
  (graph_edges.find? (fun e => e.1 = n)).map (fun e => e.2)

/-- Dispatch a node name to its stage function. -/
def applyNode (env : AgentEnv) (n : String) (s : ContentWorkflowState) : ContentWorkflowState :=
  if n = "trend_research" then trend_research_node env s
  else if n = "content_strategy" then content_strategy_node env s
  else if n = "brief_generation" then brief_generation_node env s
  else s

/-- Follow the edges from node `n`, applying each reached stage node to
the state and collecting the names of the invoked stages (fuel-bounded
recursion; the graph is finite and acyclic). -/
def runFrom (env : AgentEnv) : Nat → String → ContentWorkflowState →
    ContentWorkflowState × List String
  | 0, _, s => (s, [])
  | Nat.succ fuel, n, s =>
    match nextNode n with
    | none => (s, [])
    | some m =>
      if m = "END" then (s, [])
      else
        let r := runFrom env fuel m (applyNode env m s)
        (r.1, m :: r.2)

/-- `content_graph.ainvoke`: run the compiled graph from START on an
initial state, returning the final state and the trace of invoked
stage nodes. -/
def content_graph (env : AgentEnv) (s : ContentWorkflowState) :
    ContentWorkflowState × List String :=
  runFrom env 4 "START" s

/-! ## Concrete instances

A small company profile and concrete stage outputs mirroring the shapes
the test driver (`src/test/test.py`) and the route layer
(`src/routes/agent_routes.py`) construct; the initial state below copies
the caller's initialisation: `trends/strategy/briefs/error = None`,
`current_step = "start"`. -/

def sampleAudience : TargetAudience :=
  { name := "Tech Professionals"
    pain_points := ["Time management", "Staying updated"]
    demographics := ["25-40"]
    preferred_platforms := ["linkedin"]
    content_preferences := ["tutorials"]
    engagement_patterns := [] }

def sampleProfile : CompanyProfile :=
  { company_id := "c-1"
    company_name := "Acme"
    industry := "SaaS"
    target_audience := sampleAudience
    content_themes := ["AI trends"]
    competitor_domains := ["rival.com"]
    business_objectives := ["Growth"]
    brand_voice := "professional"
    content_preferences := ["blog"]
    posting_frequency_target := 3
    seo_keywords := ["saas"]
    budget_constraints := none
    content_restrictions := [] }

/-- The caller's initial state (`src/routes/agent_routes.py`, line 215,
and `src/test/test.py`). -/
def sampleState : ContentWorkflowState :=
  { company_id := "c-1", profile := sampleProfile, trends := none,
    strategy := none, briefs := none, error := none, current_step := "start" }

/-- A schema-valid topic whose sub-scores (40+30+20+10 = 100) do not sum
to its composite score (59), and whose composite is below the 60-point
admission threshold of the prompt rubric. -/
def ceTopic : TrendingTopic :=
  { topic := "AI agents"
    trend_score := 59
    source := "news_outlets"
    relevance_reason := "relevant to the audience"
    content_angle := "practical guide"
    business_relevance_score := 40
    audience_interest_score := 30
    content_opportunity_score := 20
    trend_momentum_score := 10
    recommended_platforms := ["linkedin"]
    target_keywords := ["ai"]
    competitor_coverage := false
    urgency_level := "high"
    trend_lifespan_estimate := "3 months" }

/-- A trend-research output containing `ceTopic`. -/
def ceTrendOut : TrendResearchOutput :=
  { trending_topics := [ceTopic]
    research_summary := "summary"
    total_topics_found := 1
    total_topics_qualifying := 0
    research_date := "2025-01-01"
    research_timeframe := "7d"
    top_keywords := ["ai"]
    industry_insights := []
    competitive_gaps := []
    seasonal_considerations := [] }

/-- A trend-research output with no topics and no keywords. -/
def sampleTrendOut : TrendResearchOutput :=
  { trending_topics := []
    research_summary := "nothing found"
    total_topics_found := 0
    total_topics_qualifying := 0
    research_date := "2025-01-01"
    research_timeframe := "7d"
    top_keywords := []
    industry_insights := []
    competitive_gaps := []
    seasonal_considerations := [] }

def sampleTheme : WeeklyTheme :=
  { theme_name := "Education week"
    focus_area := "tutorials"
    key_message := "learn fast"
    target_pain_points := ["Time management"]
    supporting_themes := [] }

/-- A content mix matching the prompt's 40/30/20/10 target. -/
def goodMix : ContentMix :=
  { educational_percentage := 40
    industry_insights_percentage := 30
    company_product_percentage := 20
    engagement_community_percentage := 10 }

/-- A schema-valid content mix whose percentages sum to 400, not 100:
each field individually satisfies its `[0, 100]` bound. -/
def badMix : ContentMix :=
  { educational_percentage := 100
    industry_insights_percentage := 100
    company_product_percentage := 100
    engagement_community_percentage := 100 }

def sampleStrategyOutput : ContentStrategyOutput :=
  { content_strategy :=
      { weekly_theme := sampleTheme
        content_mix := goodMix
        priority_topics := ["AI agents"]
        target_audience_segments := ["Tech Professionals"]
        competitive_differentiation := "hands-on depth"
        content_calendar_notes := [] }
    recommended_content_pieces := []
    strategy_summary := "weekly plan"
    weekly_focus := "Education week"
    success_metrics := []
    risk_mitigation := []
    resource_requirements := []
    timeline_considerations := [] }

/-- `sampleStrategyOutput` with the sum-violating mix substituted. -/
def badStrategyOutput : ContentStrategyOutput :=
  { sampleStrategyOutput with
    content_strategy := { sampleStrategyOutput.content_strategy with content_mix := badMix } }

def sampleSEO : SEOOptimization :=
  { primary_keyword := "saas"
    secondary_keywords := ["ai"]
    meta_description := String.toList "A concise meta description."
    title_variations := ["Title A"]
    target_search_intent := "informational"
    internal_link_opportunities := []
    featured_snippet_optimization := "use a list" }

def sampleBrief : ContentBrief :=
  { brief_id := "b-1"
    title := "Getting started"
    final_title_options := ["Getting started"]
    objective := "educate"
    target_audience_segment := "Tech Professionals"
    content_type := "blog_post"
    platform := "linkedin"
    content_structure :=
      { hook := "hook", main_points := ["p1"], supporting_details := [],
        conclusion := "wrap", call_to_action := "subscribe", content_flow := "linear" }
    seo_optimization := sampleSEO
    platform_specifications :=
      { optimal_length_words := 800, optimal_length_characters := none,
        best_posting_time := "9am", hashtags := [], visual_requirements := [],
        engagement_tactics := [], format_specifications := [],
        cross_promotion_opportunities := [] }
    brand_alignment :=
      { tone := "professional", voice_guidelines := [], key_messages := [],
        brand_values_to_highlight := [], messaging_restrictions := [],
        brand_personality_elements := [] }
    success_metrics :=
      { primary_kpi := "engagement", target_engagement_rate := some 5,
        target_reach := none, target_clicks := none, target_leads := none,
        target_shares := none, measurement_timeframe := "7d",
        benchmark_comparison := "last week" }
    execution_notes :=
      { time_estimate_hours := 2, difficulty_level := "easy",
        required_resources := [], dependencies := [], review_checkpoints := [],
        quality_criteria := [], potential_challenges := [] }
    created_date := "2025-01-01"
    priority_level := "high"
    deadline := none
    approval_workflow := [] }

def sampleBriefOut : BriefGenerationOutput :=
  { content_briefs := [sampleBrief]
    total_briefs_generated := 1
    generation_date := "2025-01-01"
    strategy_alignment_score := 90
    estimated_total_hours := 2
    resource_summary := []
    timeline_overview := "this week" }

/-- `sampleBrief` with a 200-character meta description (over the
160-character cap, exercising the truncation branch). -/
def longBrief : ContentBrief :=
  { sampleBrief with
    seo_optimization := { sampleSEO with meta_description := List.replicate 200 'a' } }

def sampleLongOut : BriefGenerationOutput :=
  { sampleBriefOut with content_briefs := [longBrief] }

/-- An environment in which every generative call raises. -/
def envAllFail : AgentEnv :=
  { trendResult := fun _ => Except.error "boom"
    strategyResult := fun _ => Except.error "bang"
    briefResult := fun _ => Except.error "crash" }

/-- An environment in which every generative call succeeds. -/
def envRunOk : AgentEnv :=
  { trendResult := fun _ => Except.ok sampleTrendOut
    strategyResult := fun _ => Except.ok sampleStrategyOutput
    briefResult := fun _ => Except.ok sampleBriefOut }

/-- An environment whose strategy call returns the sum-violating mix. -/
def envBadMix : AgentEnv :=
  { trendResult := fun _ => Except.error "unused"
    strategyResult := fun _ => Except.ok badStrategyOutput
    briefResult := fun _ => Except.error "unused" }

/-! ## Helper definitions and lemmas -/

/-- State after the first stage of a run. -/
def afterTrend (env : AgentEnv) (s : ContentWorkflowState) : ContentWorkflowState :=
  trend_research_node env s

/-- State after the first two stages of a run. -/
def afterStrategy (env : AgentEnv) (s : ContentWorkflowState) : ContentWorkflowState :=
  content_strategy_node env (afterTrend env s)

/-- State after all three stages of a run. -/
def afterBrief (env : AgentEnv) (s : ContentWorkflowState) : ContentWorkflowState :=
  brief_generation_node env (afterStrategy env s)

/-- Position of a `current_step` label in the advancement order; labels
outside the order rank as 0. -/
def stepIndex (lbl : String) : Nat :=
  if lbl = "trend_research_done" then 1
  else if lbl = "content_strategy_done" then 2
  else if lbl = "brief_generation_done" then 3
  else 0

theorem stepIndex_le_three (lbl : String) : stepIndex lbl ≤ 3 := by
  unfold stepIndex
  repeat' split
  all_goals omega

theorem trend_step_cases (env : AgentEnv) (s : ContentWorkflowState) :
    (trend_research_node env s).current_step = s.current_step ∨
    (trend_research_node env s).current_step = "trend_research_done" := by
  unfold trend_research_node
  cases env.trendResult (research_query s.profile) <;> simp

theorem strategy_step_cases (env : AgentEnv) (s : ContentWorkflowState) :
    (content_strategy_node env s).current_step = s.current_step ∨
    (content_strategy_node env s).current_step = "content_strategy_done" := by
  unfold content_strategy_node
  cases env.strategyResult (build_strategy_input s.profile s.trends) <;> simp

theorem brief_step_cases (env : AgentEnv) (s : ContentWorkflowState) :
    (brief_generation_node env s).current_step = s.current_step ∨
    (brief_generation_node env s).current_step = "brief_generation_done" := by
  unfold brief_generation_node
  cases env.briefResult (build_brief_input s.profile s.strategy s.trends) <;> simp

/-- Per-brief behaviour of the truncation repair. -/
theorem truncMeta_brief_spec (b b' : ContentBrief)
    (hb : b' = (if 160 < b.seo_optimization.meta_description.length then
        { b with seo_optimization :=
            { b.seo_optimization with
              meta_description := b.seo_optimization.meta_description.take 157 ++ ellipsisMarker } }
      else b)) :
    b'.seo_optimization.meta_description.length ≤ 160 ∧
    (160 < b.seo_optimization.meta_description.length →
      b'.seo_optimization.meta_description =
        b.seo_optimization.meta_description.take 157 ++ ellipsisMarker ∧
      b'.seo_optimization.meta_description.length = 160 ∧
      ellipsisMarker <:+ b'.seo_optimization.meta_description) ∧
    (b.seo_optimization.meta_description.length ≤ 160 → b' = b) := by
  by_cases h : 160 < b.seo_optimization.meta_description.length
  · subst hb
    rw [if_pos h]
    refine ⟨?_, fun _ => ⟨rfl, ?_, List.suffix_append _ _⟩, fun hle => absurd h (not_lt.mpr hle)⟩
    · show (b.seo_optimization.meta_description.take 157 ++ ellipsisMarker).length ≤ 160
      simp [List.length_append, List.length_take, ellipsisMarker]
    · show (b.seo_optimization.meta_description.take 157 ++ ellipsisMarker).length = 160
      simp [List.length_append, List.length_take, ellipsisMarker]
      omega
  · subst hb
    rw [if_neg h]
    push_neg at h
    exact ⟨h, fun hgt => absurd hgt (not_lt.mpr h), fun _ => rfl⟩

/-! ## Claims -/

/-- Claim C1: for every run and every environment of stage outcomes, the
compiled graph invokes exactly the three stage nodes in the fixed order
trend_research, content_strategy, brief_generation — the next stage is
invoked unconditionally after the previous executor returns, so the
final state is the three nodes composed in order; in particular a run
whose TrendResearch stage fails still invokes ContentStrategy
(continue-and-collect, never fail-fast). -/
theorem orchestrator_invokes_all_stages_in_order (env : AgentEnv) (s : ContentWorkflowState) :
    (content_graph env s).2 = ["trend_research", "content_strategy", "brief_generation"] ∧
    (content_graph env s).1 =
      brief_generation_node env (content_strategy_node env (trend_research_node env s)) :=
  ⟨rfl, rfl⟩

/-- Claim C2: an exception in any stage executor is absorbed at the stage
boundary: the stage returns the state with `error` set to the
stage-qualified message "X Failed: cause" and every other field —
including the stage's own output field — exactly as it received it. -/
theorem stage_exceptions_caught_at_boundary (env : AgentEnv) (s : ContentWorkflowState)
    (e : String) :
    (env.trendResult (research_query s.profile) = Except.error e →
      trend_research_node env s = { s with error := some ("Trend Research Failed: " ++ e) }) ∧
    (env.strategyResult (build_strategy_input s.profile s.trends) = Except.error e →
      content_strategy_node env s = { s with error := some ("Content Strategy Failed: " ++ e) }) ∧
    (env.briefResult (build_brief_input s.profile s.strategy s.trends) = Except.error e →
      brief_generation_node env s = { s with error := some ("Brief Generation Failed: " ++ e) }) := by
  refine ⟨fun h => ?_, fun h => ?_, fun h => ?_⟩ <;>
    simp [trend_research_node, content_strategy_node, brief_generation_node, h]

theorem stage_exceptions_caught_at_boundary_witness :
    trend_research_node envAllFail sampleState =
      { sampleState with error := some "Trend Research Failed: boom" } :=
  (stage_exceptions_caught_at_boundary envAllFail sampleState "boom").1 rfl

/-- Claim C3 counterexample: in a run where every stage fails, the error
recorded by the first failing stage (TrendResearch) is later replaced:
the final state of the full run carries the BriefGeneration failure
message, which differs from the first one — so the error field is not
"set at most once, first failure wins". -/
theorem first_failure_wins_ce :
    (trend_research_node envAllFail sampleState).error =
      some "Trend Research Failed: boom" ∧
    (content_graph envAllFail sampleState).1.error =
      some "Brief Generation Failed: crash" ∧
    ("Brief Generation Failed: crash" : String) ≠ "Trend Research Failed: boom" :=
  ⟨rfl, rfl, by decide⟩

/-- Claim C3 as amended: a succeeding stage never changes the error field
(so an error, once set, survives every later success and is never
cleared), but each failing stage overwrites it unconditionally with its
own stage-qualified message — last failure wins, not first. -/
theorem error_overwritten_by_later_failure (env : AgentEnv) (s : ContentWorkflowState) :
    (∀ out, env.trendResult (research_query s.profile) = Except.ok out →
      (trend_research_node env s).error = s.error) ∧
    (∀ e, env.trendResult (research_query s.profile) = Except.error e →
      (trend_research_node env s).error = some ("Trend Research Failed: " ++ e)) ∧
    (∀ out, env.strategyResult (build_strategy_input s.profile s.trends) = Except.ok out →
      (content_strategy_node env s).error = s.error) ∧
    (∀ e, env.strategyResult (build_strategy_input s.profile s.trends) = Except.error e →
      (content_strategy_node env s).error = some ("Content Strategy Failed: " ++ e)) ∧
    (∀ out, env.briefResult (build_brief_input s.profile s.strategy s.trends) = Except.ok out →
      (brief_generation_node env s).error = s.error) ∧
    (∀ e, env.briefResult (build_brief_input s.profile s.strategy s.trends) = Except.error e →
      (brief_generation_node env s).error = some ("Brief Generation Failed: " ++ e)) := by
  refine ⟨fun out h => ?_, fun e h => ?_, fun out h => ?_, fun e h => ?_,
          fun out h => ?_, fun e h => ?_⟩ <;>
    simp [trend_research_node, content_strategy_node, brief_generation_node, h]

theorem error_overwritten_by_later_failure_witness :
    (trend_research_node envRunOk sampleState).error = none ∧
    (content_strategy_node envAllFail sampleState).error =
      some "Content Strategy Failed: bang" :=
  ⟨(error_overwritten_by_later_failure envRunOk sampleState).1 sampleTrendOut rfl,
   (error_overwritten_by_later_failure envAllFail sampleState).2.2.2.1 "bang" rfl⟩

/-- Claim C4: starting from `current_step = "start"`, each stage writes
only its own done-label and only on success, a failing stage leaves
`current_step` exactly as it found it, and across the run the label's
position in the order start, trend_research_done, content_strategy_done,
brief_generation_done never decreases. -/
theorem current_step_monotone_success_only (env : AgentEnv) (s0 : ContentWorkflowState)
    (h : s0.current_step = "start") :
    (∀ s e, env.trendResult (research_query s.profile) = Except.error e →
      (trend_research_node env s).current_step = s.current_step) ∧
    (∀ s (out : TrendResearchOutput),
      env.trendResult (research_query s.profile) = Except.ok out →
      (trend_research_node env s).current_step = "trend_research_done") ∧
    (∀ s e, env.strategyResult (build_strategy_input s.profile s.trends) = Except.error e →
      (content_strategy_node env s).current_step = s.current_step) ∧
    (∀ s (out : ContentStrategyOutput),
      env.strategyResult (build_strategy_input s.profile s.trends) = Except.ok out →
      (content_strategy_node env s).current_step = "content_strategy_done") ∧
    (∀ s e, env.briefResult (build_brief_input s.profile s.strategy s.trends) = Except.error e →
      (brief_generation_node env s).current_step = s.current_step) ∧
    (∀ s (out : BriefGenerationOutput),
      env.briefResult (build_brief_input s.profile s.strategy s.trends) = Except.ok out →
      (brief_generation_node env s).current_step = "brief_generation_done") ∧
    stepIndex s0.current_step ≤ stepIndex (afterTrend env s0).current_step ∧
    stepIndex (afterTrend env s0).current_step ≤
      stepIndex (afterStrategy env s0).current_step ∧
    stepIndex (afterStrategy env s0).current_step ≤
      stepIndex (afterBrief env s0).current_step := by
  refine ⟨fun s e hmatch => ?_, fun s out hmatch => ?_, fun s e hmatch => ?_,
          fun s out hmatch => ?_, fun s e hmatch => ?_, fun s out hmatch => ?_,
          ?_, ?_, ?_⟩
  case _ => simp [trend_research_node, hmatch]
  case _ => simp [trend_research_node, hmatch]
  case _ => simp [content_strategy_node, hmatch]
  case _ => simp [content_strategy_node, hmatch]
  case _ => simp [brief_generation_node, hmatch]
  case _ => simp [brief_generation_node, hmatch]
  case _ =>
    rw [h]
    exact Nat.zero_le _
  case _ =>
    rcases strategy_step_cases env (afterTrend env s0) with h2 | h2
    · rw [afterStrategy, h2]
    · rw [afterStrategy, h2]
      rcases trend_step_cases env s0 with h1 | h1
      · rw [afterTrend, h1, h]
        decide
      · rw [afterTrend, h1]
        decide
  case _ =>
    rcases brief_step_cases env (afterStrategy env s0) with h3 | h3
    · rw [afterBrief, h3]
    · rw [afterBrief, h3]
      exact le_trans (stepIndex_le_three _) (by decide)

theorem current_step_monotone_success_only_witness :
    stepIndex ((afterStrategy envAllFail sampleState).current_step) ≤
      stepIndex ((afterBrief envAllFail sampleState).current_step) :=
  (current_step_monotone_success_only envAllFail sampleState rfl).2.2.2.2.2.2.2.2

/-- Claim C5: the truncation step maps each brief of the output to a
brief whose meta description has length at most 160; a meta description
longer than 160 becomes its first 157 characters followed by the
three-character ellipsis marker (length exactly 160, ending in the
marker), and a brief whose meta description has length at most 160 —
including exactly 160 — is left entirely unchanged. -/
theorem truncate_meta_descriptions_spec (out : BriefGenerationOutput) :
    List.Forall₂ (fun b b' =>
      b'.seo_optimization.meta_description.length ≤ 160 ∧
      (160 < b.seo_optimization.meta_description.length →
        b'.seo_optimization.meta_description =
          b.seo_optimization.meta_description.take 157 ++ ellipsisMarker ∧
        b'.seo_optimization.meta_description.length = 160 ∧
        ellipsisMarker <:+ b'.seo_optimization.meta_description) ∧
      (b.seo_optimization.meta_description.length ≤ 160 → b' = b))
      out.content_briefs (truncate_meta_descriptions out).content_briefs := by
  rw [truncate_meta_descriptions, List.forall₂_map_right_iff, List.forall₂_same]
  intro b _
  exact truncMeta_brief_spec b _ rfl

theorem truncate_meta_descriptions_spec_witness :
    List.Forall₂ (fun b b' =>
      b'.seo_optimization.meta_description.length ≤ 160 ∧
      (160 < b.seo_optimization.meta_description.length →
        b'.seo_optimization.meta_description =
          b.seo_optimization.meta_description.take 157 ++ ellipsisMarker ∧
        b'.seo_optimization.meta_description.length = 160 ∧
        ellipsisMarker <:+ b'.seo_optimization.meta_description) ∧
      (b.seo_optimization.meta_description.length ≤ 160 → b' = b))
      sampleLongOut.content_briefs (truncate_meta_descriptions sampleLongOut).content_briefs ∧
    (truncate_meta_descriptions sampleLongOut).content_briefs.map
      (fun b => b.seo_optimization.meta_description.length) = [160] :=
  ⟨truncate_meta_descriptions_spec sampleLongOut, by
    set_option maxRecDepth 4000 in decide⟩

/-- Claim C6 counterexample: the retry budget of 3 is not declared for
every stage — only the BriefGeneration agent constructor passes
`output_retries=3`; the TrendResearch and ContentStrategy constructors
pass no retry budget at all. -/
theorem uniform_retry_budget_ce :
    (create_brief_generation_agent sampleProfile).output_retries = some 3 ∧
    (create_trend_research_agent sampleProfile).output_retries = none ∧
    (create_content_strategy_agent sampleProfile).output_retries = none ∧
    (create_trend_research_agent sampleProfile).output_retries ≠ some 3 :=
  ⟨rfl, rfl, rfl, by decide⟩

/-- Claim C6 as amended: only the BriefGeneration agent is constructed
with an explicit schema-validation retry budget, of exactly 3 attempts;
the TrendResearch and ContentStrategy agents are constructed without
one, leaving the generative-call library's default budget in force. -/
theorem retry_budget_configuration (p : CompanyProfile) :
    (create_brief_generation_agent p).output_retries = some 3 ∧
    (create_trend_research_agent p).output_retries = none ∧
    (create_content_strategy_agent p).output_retries = none :=
  ⟨rfl, rfl, rfl⟩

/-- Claim C7 counterexample: a TrendingTopic that passes schema
validation and sits inside a valid TrendResearchOutput's
`trending_topics` list whose four sub-scores (40+30+20+10 = 100) do not
sum to its composite score (59) and whose composite is below the
60-point admission threshold — neither the sum rule nor the threshold
is enforced on accepted topics. -/
theorem trending_topic_sum_admission_ce :
    ceTrendOut.Valid ∧ ceTopic ∈ ceTrendOut.trending_topics ∧
    ceTopic.business_relevance_score + ceTopic.audience_interest_score +
      ceTopic.content_opportunity_score + ceTopic.trend_momentum_score ≠
      ceTopic.trend_score ∧
    ceTopic.trend_score < 60 := by
  refine ⟨by decide, by simp [ceTrendOut], ?_, by decide⟩
  simp [ceTopic]
  norm_num

/-- Claim C7 as amended: schema validation enforces only the individual
bounds of an accepted TrendingTopic — the composite lies in [0, 100] and
each sub-score within its cap (40/30/20/10), so the sub-score sum also
lies in [0, 100]; the requirements that the sub-scores sum to the
composite and that only composites ≥ 60 are admitted appear in the
prompt rubric only and are not validated. -/
theorem trending_topic_validated_bounds (t : TrendingTopic) (h : t.Valid) :
    0 ≤ t.business_relevance_score + t.audience_interest_score +
      t.content_opportunity_score + t.trend_momentum_score ∧
    t.business_relevance_score + t.audience_interest_score +
      t.content_opportunity_score + t.trend_momentum_score ≤ 100 ∧
    0 ≤ t.trend_score ∧ t.trend_score ≤ 100 := by
  obtain ⟨h1, h2, h3, h4, h5, h6, h7, h8, h9, h10, -⟩ := h
  exact ⟨by linarith, by linarith, h1, h2⟩

theorem trending_topic_validated_bounds_witness :
    0 ≤ ceTopic.business_relevance_score + ceTopic.audience_interest_score +
      ceTopic.content_opportunity_score + ceTopic.trend_momentum_score ∧
    ceTopic.business_relevance_score + ceTopic.audience_interest_score +
      ceTopic.content_opportunity_score + ceTopic.trend_momentum_score ≤ 100 ∧
    0 ≤ ceTopic.trend_score ∧ ceTopic.trend_score ≤ 100 :=
  trending_topic_validated_bounds ceTopic (by decide)

/-- Claim C8 counterexample: a ContentStrategyOutput whose content-mix
percentages are each within [0, 100] but sum to 400 passes schema
validation, and the ContentStrategy stage accepts and stores it with no
error — the sum-to-100 rule is not enforced on accepted outputs (the
`validate_total` helper would reject it, but no caller invokes it). -/
theorem content_mix_sum_ce :
    badStrategyOutput.Valid ∧
    (content_strategy_node envBadMix sampleState).strategy = some badStrategyOutput ∧
    (content_strategy_node envBadMix sampleState).error = none ∧
    badStrategyOutput.content_strategy.content_mix.educational_percentage +
      badStrategyOutput.content_strategy.content_mix.industry_insights_percentage +
      badStrategyOutput.content_strategy.content_mix.company_product_percentage +
      badStrategyOutput.content_strategy.content_mix.engagement_community_percentage ≠ 100 ∧
    badMix.validate_total = false := by
  refine ⟨by decide, rfl, rfl, ?_, ?_⟩
  · simp [badStrategyOutput, sampleStrategyOutput, badMix]
    norm_num
  · simp only [ContentMix.validate_total, badMix, decide_eq_false_iff_not]
    norm_num

/-- Claim C8 as amended: the ContentStrategy stage accepts any
schema-valid output as-is — whatever the generative call returns is
stored unchanged in `state.strategy` with no error — so the content-mix
percentages of an accepted output are each within [0, 100] but their
sum is not constrained to 100. -/
theorem strategy_output_accepted_as_is (env : AgentEnv) (s : ContentWorkflowState)
    (out : ContentStrategyOutput)
    (h : env.strategyResult (build_strategy_input s.profile s.trends) = Except.ok out) :
    (content_strategy_node env s).strategy = some out ∧
    (content_strategy_node env s).error = s.error := by
  constructor <;> simp [content_strategy_node, h]

theorem strategy_output_accepted_as_is_witness :
    (content_strategy_node envBadMix sampleState).strategy = some badStrategyOutput ∧
    (content_strategy_node envBadMix sampleState).error = none :=
  strategy_output_accepted_as_is envBadMix sampleState badStrategyOutput rfl

/-- Claim C9: a missing upstream output is replaced by a placeholder and
the stage proceeds: with `trends` unset (or its topic list empty) the
strategy instruction's trends section is the neutral text "No specific
trends found" and the ContentStrategy stage still runs its agent and
stores a successful result without error; with `strategy`/`trends`
unset the brief instruction substitutes "General content strategy",
"General content topics" and "General industry keywords", and the
BriefGeneration stage likewise proceeds. -/
theorem missing_upstream_placeholder_substitution (env : AgentEnv)
    (s : ContentWorkflowState) :
    (s.trends = none → strategyTrendsSection s.trends = "No specific trends found") ∧
    (∀ t, s.trends = some t → t.trending_topics = [] →
      strategyTrendsSection s.trends = "No specific trends found") ∧
    (s.trends = none →
      ∀ out, env.strategyResult (build_strategy_input s.profile s.trends) = Except.ok out →
        (content_strategy_node env s).strategy = some out ∧
        (content_strategy_node env s).error = s.error) ∧
    (s.strategy = none →
      briefStrategyFocus s.strategy = "General content strategy" ∧
      briefTopicsSection s.strategy = "General content topics") ∧
    (s.trends = none → briefKeywordsSection s.trends = "General industry keywords") ∧
    (s.strategy = none → s.trends = none →
      ∀ out, env.briefResult (build_brief_input s.profile s.strategy s.trends) = Except.ok out →
        (brief_generation_node env s).briefs = some (truncate_meta_descriptions out) ∧
        (brief_generation_node env s).error = s.error) := by
  refine ⟨fun h => ?_, fun t h hemp => ?_, fun h out hok => ?_, fun h => ?_,
          fun h => ?_, fun h1 h2 out hok => ?_⟩
  · rw [h]
    rfl
  · rw [h]
    simp [strategyTrendsSection, hemp]
  · constructor <;> simp [content_strategy_node, hok]
  · rw [h]
    exact ⟨rfl, rfl⟩
  · rw [h]
    rfl
  · constructor <;> simp [brief_generation_node, hok]

theorem missing_upstream_placeholder_substitution_witness :
    strategyTrendsSection sampleState.trends = "No specific trends found" ∧
    (content_strategy_node envRunOk sampleState).strategy = some sampleStrategyOutput ∧
    briefStrategyFocus sampleState.strategy = "General content strategy" ∧
    (brief_generation_node envRunOk sampleState).briefs =
      some (truncate_meta_descriptions sampleBriefOut) :=
  ⟨(missing_upstream_placeholder_substitution envRunOk sampleState).1 rfl,
   ((missing_upstream_placeholder_substitution envRunOk sampleState).2.2.1 rfl
      sampleStrategyOutput rfl).1,
   ((missing_upstream_placeholder_substitution envRunOk sampleState).2.2.2.1 rfl).1,
   ((missing_upstream_placeholder_substitution envRunOk sampleState).2.2.2.2.2 rfl rfl
      sampleBriefOut rfl).1⟩

/-- Claim C10: on any output that passes schema validation every brief's
meta description already has length at most 160 (the schema's
`max_length=160` bound), so the truncation branch is unreachable and
`truncate_meta_descriptions` is the identity. -/
theorem schema_valid_truncation_identity (out : BriefGenerationOutput) (h : out.Valid) :
    truncate_meta_descriptions out = out := by
  have hb : ∀ b ∈ out.content_briefs,
      (if 160 < b.seo_optimization.meta_description.length then
        { b with seo_optimization :=
            { b.seo_optimization with
              meta_description := b.seo_optimization.meta_description.take 157 ++ ellipsisMarker } }
      else b) = b := by
    intro b hbmem
    exact if_neg (not_lt.mpr (h.2.2.2.2 b hbmem).1)
  rw [truncate_meta_descriptions]
  have hmap : out.content_briefs.map (fun brief =>
      if 160 < brief.seo_optimization.meta_description.length then
        { brief with seo_optimization :=
            { brief.seo_optimization with
              meta_description := brief.seo_optimization.meta_description.take 157 ++ ellipsisMarker } }
      else brief) = out.content_briefs := by
    calc out.content_briefs.map _ = out.content_briefs.map id := List.map_congr_left hb
    _ = out.content_briefs := List.map_id out.content_briefs
  rw [hmap]

theorem schema_valid_truncation_identity_witness :
    truncate_meta_descriptions sampleBriefOut = sampleBriefOut :=
  schema_valid_truncation_identity sampleBriefOut (by decide)

end ContentFlow
